import Mathlib

/-!
Shallow embedding of the ShopifyPulse analytics core
(`src/api/analytics.py` and `src/api/recommendations.py`).

Numbers are modelled with `ℚ` (Python floats read as exact decimals), counts
with `ℕ`/`ℤ`.  Python `int(x)` truncates toward zero (`pyInt`), `round(x, n)`
rounds to `n` decimal places (`pyRound2`/`pyRound1`, modelled with Mathlib's
`round`, i.e. nearest integer; the tie-breaking rule is irrelevant to every
statement proved here), and `range(n)` on a possibly negative `n` yields the
empty list (`pyRange` via `Int.toNat`).  The process-global `random.uniform`
draws are modelled as explicit function arguments constrained, where a claim
needs it, to the interval the source draws from.  Calendar dates are modelled
as integer day offsets relative to "now" (`datetime.now()`), and the weekday
test `date.weekday() >= 5` as a boolean function of that offset.
-/

namespace ShopifyPulse

/-- Python `int(x)`: truncation toward zero. -/
def pyInt (q : ℚ) : ℤ := if 0 ≤ q then ⌊q⌋ else ⌈q⌉

/-- Python `round(x, 2)`. -/
def pyRound2 (q : ℚ) : ℚ := ((round (q * 100) : ℤ) : ℚ) / 100

/-- Python `round(x, 1)`. -/
def pyRound1 (q : ℚ) : ℚ := ((round (q * 10) : ℤ) : ℚ) / 10

/-- Python `range(n)` for an `int` argument: empty when `n ≤ 0`. -/
def pyRange (n : ℤ) : List ℕ := List.range n.toNat

theorem pyInt_eq_floor {q : ℚ} (h : 0 ≤ q) : pyInt q = ⌊q⌋ := if_pos h

theorem round_nonneg {q : ℚ} (h : 0 ≤ q) : 0 ≤ round q := by
  rw [round_eq, Int.le_floor]
  push_cast
  linarith

theorem pyRound2_nonneg {q : ℚ} (h : 0 ≤ q) : 0 ≤ pyRound2 q := by
  unfold pyRound2
  have : (0 : ℤ) ≤ round (q * 100) := round_nonneg (by positivity)
  positivity

theorem pyRound1_nonneg {q : ℚ} (h : 0 ≤ q) : 0 ≤ pyRound1 q := by
  unfold pyRound1
  have : (0 : ℤ) ≤ round (q * 10) := round_nonneg (by positivity)
  positivity

/-- Rounding to one decimal moves a value by at most `1/20 = 0.05`. -/
theorem pyRound1_close (q : ℚ) : q - 1/20 ≤ pyRound1 q ∧ pyRound1 q ≤ q + 1/20 := by
  have h := abs_sub_round (q * 10)
  rw [abs_sub_le_iff] at h
  unfold pyRound1
  constructor
  · linarith [h.1, h.2]
  · linarith [h.1, h.2]

/-- Rounding to two decimals keeps a value inside an interval whose bounds
are multiples of `1/100`; instantiated at `[4, 13/2]` for the conversion trend. -/
theorem pyRound2_mem_Icc {q : ℚ} (h4 : 4 ≤ q) (h65 : q ≤ 13/2) :
    4 ≤ pyRound2 q ∧ pyRound2 q ≤ 13/2 := by
  unfold pyRound2
  have hlo : (400 : ℤ) ≤ round (q * 100) := by
    rw [round_eq, Int.le_floor]
    push_cast
    linarith
  have hhi : round (q * 100) ≤ 650 := by
    rw [round_eq]
    have : (⌊q * 100 + 1 / 2⌋ : ℤ) < 651 := by
      rw [Int.floor_lt]
      push_cast
      linarith
    omega
  constructor
  · rw [le_div_iff₀ (by norm_num)]
    exact_mod_cast hlo
  · rw [div_le_iff₀ (by norm_num)]
    calc ((round (q * 100) : ℤ) : ℚ) ≤ (650 : ℤ) := by exact_mod_cast hhi
      _ = 13/2 * 100 := by norm_num

/-! ## Trend Generator (`src/api/analytics.py`, `generate_revenue_trend` /
`generate_conversion_trend`) -/

/-- One day of the revenue trend.  `date` is the day offset from today
(`datetime.now() - timedelta(days=days-i-1)` becomes `i + 1 - days`). -/
structure TrendPoint where
  date : ℤ
  revenue : ℚ
  orders : ℤ
  visitors : ℤ
deriving DecidableEq, Repr

/-- `generate_revenue_trend(days)`.  `isWeekend d` models
`date.weekday() >= 5` for day offset `d`; `randFactor i` models the i-th
`random.uniform(0.85, 1.15)` draw. -/
def generate_revenue_trend (days : ℤ) (isWeekend : ℤ → Bool)
    (randFactor : ℕ → ℚ) : List TrendPoint :=
  (pyRange days).map (fun (i : ℕ) =>
    let date : ℤ := (i : ℤ) + 1 - days
    let weekend_boost : ℚ := if isWeekend date then 13/10 else 1
    let growth_factor : ℚ := 1 + (i : ℚ) * (2/1000)
    let revenue : ℚ := pyRound2 (6000 * weekend_boost * randFactor i * growth_factor)
    let orders : ℤ := pyInt (revenue / 78)
    { date := date
      revenue := revenue
      orders := orders
      visitors := pyInt ((orders : ℚ) / (546/10000)) })

/-- The clamp step of `generate_conversion_trend`:
`max(4.0, min(6.5, base_rate + change))`. -/
def convStep (rate change : ℚ) : ℚ := max 4 (min (13/2) (rate + change))

/-- The loop of `generate_conversion_trend`: carries the unrounded clamped
rate, appends the 2-decimal rounding of each new rate. -/
def convTrendAux (delta : ℕ → ℚ) : List ℕ → ℚ → List ℚ
  | [], _ => []
  | i :: is, rate =>
    let r := convStep rate (delta i)
    pyRound2 r :: convTrendAux delta is r

/-- `generate_conversion_trend(days)`; `delta i` models the i-th
`random.uniform(-0.15, 0.20)` draw. -/
def generate_conversion_trend (days : ℤ) (delta : ℕ → ℚ) : List ℚ :=
  convTrendAux delta (pyRange days) 5

/-! ## Cohort Generator (`src/api/analytics.py`, `generate_cohort_data`) -/

structure Cohort where
  month : String
  customers : ℕ
  retention : List ℚ
deriving DecidableEq, Repr

structure CohortData where
  months : List String
  cohorts : List Cohort
  average_ltv : ℚ
  average_retention_3m : ℚ
deriving DecidableEq, Repr

/-- The inner loop of `generate_cohort_data`: starting from `prev`, append
`round(prev * u j, 1)` for each remaining step `j`. -/
def retAux (u : ℕ → ℚ) (prev : ℚ) : List ℕ → List ℚ
  | [] => []
  | j :: js =>
    let r := pyRound1 (prev * u j)
    r :: retAux u r js

/-- `retention = [100]` followed by `steps` decayed values. -/
def cohortRetention (u : ℕ → ℚ) (steps : ℕ) : List ℚ :=
  100 :: retAux u 100 (List.range steps)

/-- `generate_cohort_data()`.  `u i j` models the `random.uniform(0.35, 0.55)`
draw for cohort `i` at decay step `j`. -/
def generate_cohort_data (u : ℕ → ℕ → ℚ) : CohortData :=
  let months := ["Jan", "Feb", "Mar", "Apr", "May", "Jun"]
  { months := months
    cohorts := months.enum.map (fun (p : ℕ × String) =>
      { month := p.2
        customers := 400 + p.1 * 50
        retention := cohortRetention (u p.1) (5 - p.1) })
    average_ltv := 156
    average_retention_3m := 285/10 }

/-! ## Funnel Model (`src/api/analytics.py`, `get_funnel_data`) -/

structure FunnelStage where
  name : String
  visitors : ℕ
  conversions : ℕ
  conversion_rate : ℚ
  dropoff_rate : ℚ
  industry_benchmark : ℚ
  percentile : ℕ
  value : ℕ
  status : String
  insight : Option String
deriving DecidableEq, Repr

structure FunnelOverall where
  visit_to_purchase_rate : ℚ
  industry_average : ℚ
  revenue_at_risk : ℕ
  potential_recovery : ℕ
deriving DecidableEq, Repr

structure FunnelData where
  store_id : String
  period : String
  stages : List FunnelStage
  overall : FunnelOverall
  trend_7d : List ℚ
  trend_30d : List ℚ
deriving DecidableEq, Repr

/-- The hard-coded five funnel stages of `get_funnel_data`. -/
def funnel_stages : List FunnelStage :=
  [ { name := "Visit", visitors := 45000, conversions := 45000,
      conversion_rate := 100, dropoff_rate := 0, industry_benchmark := 100,
      percentile := 50, value := 0, status := "normal", insight := none },
    { name := "Product View", visitors := 45000, conversions := 22500,
      conversion_rate := 50, dropoff_rate := 50, industry_benchmark := 45,
      percentile := 65, value := 0, status := "good",
      insight := some "Above average - product pages are engaging" },
    { name := "Add to Cart", visitors := 22500, conversions := 6750,
      conversion_rate := 30, dropoff_rate := 70, industry_benchmark := 25,
      percentile := 72, value := 526500, status := "good",
      insight := some "Strong ATC rate - pricing is competitive" },
    { name := "Checkout Started", visitors := 6750, conversions := 4050,
      conversion_rate := 60, dropoff_rate := 40, industry_benchmark := 55,
      percentile := 58, value := 315900, status := "warning",
      insight := some "Checkout abandonment higher than optimal" },
    { name := "Purchase Complete", visitors := 4050, conversions := 2458,
      conversion_rate := 607/10, dropoff_rate := 393/10, industry_benchmark := 70,
      percentile := 35, value := 191716, status := "critical",
      insight := some "Payment failures or unexpected costs" } ]

/-- `get_funnel_data(store_id, period)`; `delta` feeds the 30-day conversion
trend it embeds. -/
def get_funnel_data (store_id period : String) (delta : ℕ → ℚ) : FunnelData :=
  { store_id := store_id
    period := period
    stages := funnel_stages
    overall := { visit_to_purchase_rate := 546/100, industry_average := 32/10,
                 revenue_at_risk := 124184, potential_recovery := 74400 }
    trend_7d := [51/10, 53/10, 52/10, 54/10, 55/10, 56/10, 546/100]
    trend_30d := generate_conversion_trend 30 delta }

/-! ## Recommendation Engine (`src/api/recommendations.py`)

The catalog entries keep every field the ranking, annotation and aggregation
logic reads (`id`, `category`, `priority`, `impact_score`, `effort_score`,
`potential_revenue`, `implementation_time`, `confidence`); the free-text
`title`/`description`/`steps`/`data_sources` fields are never read by any
computation and are not modelled. -/

structure RecEntry where
  id : String
  category : String
  priority : String
  impact_score : ℕ
  effort_score : ℕ
  potential_revenue : ℕ
  implementation_time : String
  confidence : ℚ
deriving DecidableEq, Repr

/-- The static 8-entry `recommendation_pool`, in source order. -/
def recommendation_pool : List RecEntry :=
  [ { id := "rec_001", category := "conversion", priority := "critical",
      impact_score := 92, effort_score := 25, potential_revenue := 8450,
      implementation_time := "2 hours", confidence := 89/100 },
    { id := "rec_002", category := "retention", priority := "high",
      impact_score := 78, effort_score := 35, potential_revenue := 12400,
      implementation_time := "1 day", confidence := 85/100 },
    { id := "rec_003", category := "conversion", priority := "high",
      impact_score := 85, effort_score := 45, potential_revenue := 18600,
      implementation_time := "3 days", confidence := 91/100 },
    { id := "rec_004", category := "revenue", priority := "medium",
      impact_score := 72, effort_score := 20, potential_revenue := 9600,
      implementation_time := "4 hours", confidence := 82/100 },
    { id := "rec_005", category := "inventory", priority := "critical",
      impact_score := 88, effort_score := 40, potential_revenue := 28000,
      implementation_time := "Immediate", confidence := 95/100 },
    { id := "rec_006", category := "operations", priority := "medium",
      impact_score := 65, effort_score := 50, potential_revenue := 4200,
      implementation_time := "2 days", confidence := 76/100 },
    { id := "rec_007", category := "lead_gen", priority := "high",
      impact_score := 75, effort_score := 15, potential_revenue := 15600,
      implementation_time := "2 hours", confidence := 88/100 },
    { id := "rec_008", category := "retention", priority := "medium",
      impact_score := 70, effort_score := 30, potential_revenue := 18500,
      implementation_time := "1 day", confidence := 84/100 } ]

/-- `priority_order.get(x['priority'], 4)`. -/
def tierOf (r : RecEntry) : ℕ :=
  if r.priority = "critical" then 0
  else if r.priority = "high" then 1
  else if r.priority = "medium" then 2
  else if r.priority = "low" then 3
  else 4

/-- The secondary sort key `x['impact_score'] / max(x['effort_score'], 1)`. -/
def ratioOf (r : RecEntry) : ℚ := (r.impact_score : ℚ) / ((max r.effort_score 1 : ℕ) : ℚ)

/-- The comparison induced by the Python sort key
`(priority_order.get(p, 4), -(impact/max(effort,1)))`: ascending tier, then
descending impact/effort ratio. -/
def recLE (a b : RecEntry) : Prop :=
  tierOf a < tierOf b ∨ (tierOf a = tierOf b ∧ ratioOf b ≤ ratioOf a)

instance : DecidableRel recLE := fun a b => by
  unfold recLE
  exact inferInstance

/-- `recommendation_pool.sort(key=...)`.  Python's sort is a stable sort by
the key above; every catalog entry has a distinct key, so any correct sort
produces the same list, and we embed it as an insertion sort. -/
def sorted_pool : List RecEntry := List.insertionSort recLE recommendation_pool

/-- A recommendation as emitted: a catalog entry stamped with the metadata
added in the selection loop.  `generated_at` carries the
`datetime.utcnow().isoformat()` value, passed in as `now`. -/
structure RecOut extends RecEntry where
  generated_at : String
  store_id : String
  roi_score : ℚ
deriving DecidableEq, Repr

/-- `generate_recommendations(store_id, limit)`; `now` models the timestamp
taken inside the annotation loop. -/
def generate_recommendations (store_id : String) (limit : ℕ) (now : String) :
    List RecOut :=
  (sorted_pool.take limit).map (fun r =>
    { toRecEntry := r
      generated_at := now
      store_id := store_id
      roi_score := pyRound2 ((r.potential_revenue : ℚ) / ((max r.effort_score 1 : ℕ) : ℚ)) })

/-- Result record of `calculate_potential_impact`. -/
structure ImpactSummary where
  total_potential_monthly : ℚ
  total_potential_annual : ℚ
  critical_potential : ℚ
  quick_wins : ℕ
  implementation_time_total : ℕ
deriving DecidableEq, Repr

/-- `calculate_potential_impact(store_metrics)`.  The `store_metrics`
argument is never read by the source body; `now` feeds the embedded
`generate_recommendations('demo', limit=20)` call. -/
def calculate_potential_impact (store_metrics : Unit) (now : String) : ImpactSummary :=
  let recommendations := generate_recommendations "demo" 20 now
  let total_potential : ℕ := (recommendations.map (·.potential_revenue)).sum
  let critical_potential : ℕ :=
    ((recommendations.filter (·.priority = "critical")).map (·.potential_revenue)).sum
  let reality_factor : ℚ := 6/10
  { total_potential_monthly := pyRound2 ((total_potential : ℚ) * reality_factor)
    total_potential_annual := pyRound2 ((total_potential : ℚ) * reality_factor * 12)
    critical_potential := pyRound2 ((critical_potential : ℚ) * reality_factor)
    quick_wins := (recommendations.filter (·.effort_score < 30)).length
    implementation_time_total := (recommendations.map (·.effort_score)).sum / 10 }

/-! ## Metrics Aggregator (`src/api/analytics.py`, `get_dashboard_metrics`) -/

structure SummaryStats where
  total_revenue : ℕ
  revenue_change : ℚ
  total_orders : ℕ
  orders_change : ℚ
  total_visitors : ℕ
  visitors_change : ℚ
  conversion_rate : ℚ
  conversion_change : ℚ
  aov : ℚ
  aov_change : ℚ
  ltv : ℚ
  ltv_change : ℚ
deriving DecidableEq, Repr

structure ChannelStats where
  visitors : ℕ
  percentage : ℕ
  conversion : ℚ
deriving DecidableEq, Repr

structure TrafficSources where
  organic : ChannelStats
  paid : ChannelStats
  social : ChannelStats
  email : ChannelStats
  direct : ChannelStats
deriving DecidableEq, Repr

structure DeviceBreakdown where
  desktop : ChannelStats
  mobile : ChannelStats
  tablet : ChannelStats
deriving DecidableEq, Repr

structure ProductStats where
  name : String
  revenue : ℕ
  units : ℕ
  conversion : ℚ
deriving DecidableEq, Repr

structure BenchmarkStat where
  store : ℚ
  industry : ℚ
  percentile : ℕ
deriving DecidableEq, Repr

structure Benchmarks where
  conversion_rate : BenchmarkStat
  aov : BenchmarkStat
  ltv_cac_ratio : BenchmarkStat
deriving DecidableEq, Repr

structure DashboardMetrics where
  store_id : String
  period : String
  summary : SummaryStats
  revenue_trend : List TrendPoint
  traffic_sources : TrafficSources
  device_breakdown : DeviceBreakdown
  top_products : List ProductStats
  cohort_analysis : CohortData
  benchmarks : Benchmarks
deriving DecidableEq, Repr

/-- The period lookup `{'7d': 7, '30d': 30, '90d': 90, '1y': 365}.get(period, 30)`. -/
def periodDays (period : String) : ℤ :=
  if period = "7d" then 7
  else if period = "30d" then 30
  else if period = "90d" then 90
  else if period = "1y" then 365
  else 30

/-- `get_dashboard_metrics(store_id, period)`.  `isWeekend`/`randFactor` feed
the revenue trend and `u` feeds the cohort decay, as in the source call graph. -/
def get_dashboard_metrics (store_id period : String) (isWeekend : ℤ → Bool)
    (randFactor : ℕ → ℚ) (u : ℕ → ℕ → ℚ) : DashboardMetrics :=
  { store_id := store_id
    period := period
    summary :=
      { total_revenue := 191667, revenue_change := 125/10
        total_orders := 2458, orders_change := 83/10
        total_visitors := 45000, visitors_change := -21/10
        conversion_rate := 546/100, conversion_change := 4/10
        aov := 78, aov_change := 32/10
        ltv := 156, ltv_change := 51/10 }
    revenue_trend := generate_revenue_trend (periodDays period) isWeekend randFactor
    traffic_sources :=
      { organic := { visitors := 15750, percentage := 35, conversion := 42/10 }
        paid := { visitors := 11250, percentage := 25, conversion := 68/10 }
        social := { visitors := 9000, percentage := 20, conversion := 35/10 }
        email := { visitors := 6750, percentage := 15, conversion := 82/10 }
        direct := { visitors := 2250, percentage := 5, conversion := 51/10 } }
    device_breakdown :=
      { desktop := { visitors := 18000, percentage := 40, conversion := 62/10 }
        mobile := { visitors := 22500, percentage := 50, conversion := 48/10 }
        tablet := { visitors := 4500, percentage := 10, conversion := 55/10 } }
    top_products :=
      [ { name := "Vintage Denim Jacket", revenue := 28500, units := 300, conversion := 72/10 },
        { name := "Streetwear Hoodie", revenue := 22400, units := 280, conversion := 65/10 },
        { name := "Graphic Tee Bundle", revenue := 18900, units := 450, conversion := 81/10 },
        { name := "Canvas Sneakers", revenue := 15600, units := 195, conversion := 58/10 },
        { name := "Urban Backpack", revenue := 12300, units := 123, conversion := 69/10 } ]
    cohort_analysis := generate_cohort_data u
    benchmarks :=
      { conversion_rate := { store := 546/100, industry := 32/10, percentile := 85 }
        aov := { store := 78, industry := 65, percentile := 72 }
        ltv_cac_ratio := { store := 32/10, industry := 25/10, percentile := 78 } } }

/-! ## Theorems -/

/-- Evaluation rule for `pyRound2` at concrete arguments (floor
characterization of `round`). -/
theorem pyRound2_eval (q : ℚ) (n : ℤ) (h1 : (n : ℚ) ≤ q * 100 + 1/2)
    (h2 : q * 100 + 1/2 < n + 1) : pyRound2 q = (n : ℚ) / 100 := by
  unfold pyRound2
  rw [round_eq, Int.floor_eq_iff.mpr ⟨h1, by exact_mod_cast h2⟩]

theorem convTrendAux_mem_bounds (delta : ℕ → ℚ) :
    ∀ (js : List ℕ) (rate : ℚ), ∀ v ∈ convTrendAux delta js rate, 4 ≤ v ∧ v ≤ 13/2 := by
  intro js
  induction js with
  | nil => intro rate v hv; simp [convTrendAux] at hv
  | cons j js ih =>
    intro rate v hv
    simp only [convTrendAux, List.mem_cons] at hv
    rcases hv with rfl | hv
    · exact pyRound2_mem_Icc (le_max_left _ _) (max_le (by norm_num) (min_le_left _ _))
    · exact ih _ v hv

/-- C4: every value produced by `generate_conversion_trend(days)` lies in the
closed interval `[4.0, 6.5]`, for every integer `days` and every sequence of
random deltas (the clamp alone forces this, so no bound on the deltas is
needed). -/
theorem conversion_trend_bounds (days : ℤ) (delta : ℕ → ℚ) :
    ∀ v ∈ generate_conversion_trend days delta, 4 ≤ v ∧ v ≤ 13/2 :=
  fun v hv => convTrendAux_mem_bounds delta (pyRange days) 5 v hv

theorem conversion_trend_one_step :
    generate_conversion_trend 1 (fun _ => 0) = [5] := by
  have e1 : convStep 5 0 = 5 := by
    unfold convStep
    rw [min_eq_right (by norm_num), max_eq_right (by norm_num)]
    norm_num
  unfold generate_conversion_trend
  rw [show pyRange 1 = [0] from rfl]
  simp only [convTrendAux, e1]
  rw [pyRound2_eval 5 500 (by norm_num) (by norm_num)]
  norm_num

/-- Witness for C4 at `days = 1`, zero delta: the single produced value is
`5.0`, which the theorem places in `[4.0, 6.5]`. -/
theorem conversion_trend_bounds_witness :
    (5 : ℚ) ∈ generate_conversion_trend 1 (fun _ => 0) ∧ (4 ≤ (5 : ℚ) ∧ (5 : ℚ) ≤ 13/2) :=
  ⟨by rw [conversion_trend_one_step]; exact List.mem_singleton.mpr rfl,
    conversion_trend_bounds 1 (fun _ => 0) 5
      (by rw [conversion_trend_one_step]; exact List.mem_singleton.mpr rfl)⟩

/-- The C5 statement: `get_funnel_data` returns exactly the five pipeline
stages in funnel order, each stage converts at most its visitors and has
`dropoff_rate = 100 - conversion_rate`, and each stage's conversions feed the
next stage's visitors. -/
def funnelClaim (sid period : String) (delta : ℕ → ℚ) : Prop :=
  (get_funnel_data sid period delta).stages.length = 5 ∧
  (get_funnel_data sid period delta).stages.map (·.name) =
    ["Visit", "Product View", "Add to Cart", "Checkout Started", "Purchase Complete"] ∧
  (∀ s ∈ (get_funnel_data sid period delta).stages,
    s.conversions ≤ s.visitors ∧ s.dropoff_rate = 100 - s.conversion_rate) ∧
  (get_funnel_data sid period delta).stages.Chain' (fun a b => a.conversions = b.visitors)

/-- C5: the funnel invariants hold for every store id and period. -/
theorem funnel_stages_spec (sid period : String) (delta : ℕ → ℚ) :
    funnelClaim sid period delta := by
  refine ⟨rfl, rfl, ?_, ?_⟩
  · show ∀ s ∈ funnel_stages,
      s.conversions ≤ s.visitors ∧ s.dropoff_rate = 100 - s.conversion_rate
    norm_num [funnel_stages]
  · show funnel_stages.Chain' (fun a b => a.conversions = b.visitors)
    norm_num [funnel_stages, List.chain'_cons]

/-- Witness for C5 at concrete inputs. -/
theorem funnel_stages_spec_witness : funnelClaim "demo" "30d" (fun _ => 0) :=
  funnel_stages_spec "demo" "30d" (fun _ => 0)

/-- Sum of `potential_revenue` over the whole 8-entry catalog. -/
def poolRevenueSum : ℕ := (recommendation_pool.map (·.potential_revenue)).sum

/-- Sum of `potential_revenue` over the catalog entries with critical priority. -/
def poolCriticalSum : ℕ :=
  ((recommendation_pool.filter (·.priority = "critical")).map (·.potential_revenue)).sum

/-- The C6 statement, phrased against the catalog as the claim does: the
aggregate impact figures equal the discounted catalog sums, the quick-win
count and the integer-divided total effort. -/
def impactClaim (sm : Unit) (now : String) : Prop :=
  (calculate_potential_impact sm now).total_potential_monthly =
    pyRound2 ((poolRevenueSum : ℚ) * (6/10)) ∧
  (calculate_potential_impact sm now).total_potential_annual =
    pyRound2 ((poolRevenueSum : ℚ) * (6/10) * 12) ∧
  (calculate_potential_impact sm now).critical_potential =
    pyRound2 ((poolCriticalSum : ℚ) * (6/10)) ∧
  (calculate_potential_impact sm now).quick_wins =
    (recommendation_pool.filter (·.effort_score < 30)).length ∧
  (calculate_potential_impact sm now).implementation_time_total =
    (recommendation_pool.map (·.effort_score)).sum / 10

/-- C6: `calculate_potential_impact` computes exactly the discounted sums,
quick-win count and effort total described by the claim. -/
theorem potential_impact_spec (sm : Unit) (now : String) : impactClaim sm now := by
  have h1 : ((generate_recommendations "demo" 20 now).map (·.potential_revenue)).sum
      = 115350 := by
    norm_num +decide [generate_recommendations, sorted_pool, recommendation_pool,
      List.insertionSort, List.orderedInsert, recLE, tierOf, ratioOf]
  have h2 : (((generate_recommendations "demo" 20 now).filter
      (·.priority = "critical")).map (·.potential_revenue)).sum = 36450 := by
    norm_num +decide [generate_recommendations, sorted_pool, recommendation_pool,
      List.insertionSort, List.orderedInsert, recLE, tierOf, ratioOf]
  have h3 : ((generate_recommendations "demo" 20 now).filter
      (·.effort_score < 30)).length = 3 := by
    norm_num +decide [generate_recommendations, sorted_pool, recommendation_pool,
      List.insertionSort, List.orderedInsert, recLE, tierOf, ratioOf]
  have h4 : ((generate_recommendations "demo" 20 now).map (·.effort_score)).sum = 260 := by
    norm_num +decide [generate_recommendations, sorted_pool, recommendation_pool,
      List.insertionSort, List.orderedInsert, recLE, tierOf, ratioOf]
  have p1 : poolRevenueSum = 115350 := by
    norm_num [poolRevenueSum, recommendation_pool]
  have p2 : poolCriticalSum = 36450 := by
    norm_num +decide [poolCriticalSum, recommendation_pool]
  have p3 : (recommendation_pool.filter (·.effort_score < 30)).length = 3 := by
    norm_num +decide [recommendation_pool]
  have p4 : (recommendation_pool.map (·.effort_score)).sum = 260 := by
    norm_num [recommendation_pool]
  unfold impactClaim calculate_potential_impact
  dsimp only
  rw [h1, h2, h3, h4, p1, p2, p3, p4]
  exact ⟨rfl, rfl, rfl, rfl, rfl⟩

/-- Witness for C6 at concrete inputs. -/
theorem potential_impact_spec_witness : impactClaim () "t" := potential_impact_spec () "t"

/-- C7: evaluation of the code at the failing inputs.  For `days = 0` and
`days = -7`, `generate_revenue_trend` raises nothing and returns the empty
list — the `InvalidArgument` rejection the claim requires does not exist in
the source (`range(days)` is simply empty). -/
theorem revenue_trend_nonpositive_days_eval :
    generate_revenue_trend 0 (fun _ => false) (fun _ => 1) = [] ∧
    generate_revenue_trend (-7) (fun _ => false) (fun _ => 1) = [] :=
  ⟨rfl, rfl⟩

/-- C10: for every `days ≤ 0` both generators return the empty sequence
without any error: the generation loop body is never entered. -/
theorem nonpositive_days_empty (days : ℤ) (h : days ≤ 0) (isWeekend : ℤ → Bool)
    (randFactor : ℕ → ℚ) (delta : ℕ → ℚ) :
    generate_revenue_trend days isWeekend randFactor = [] ∧
    generate_conversion_trend days delta = [] := by
  have ht : days.toNat = 0 := Int.toNat_of_nonpos h
  constructor
  · unfold generate_revenue_trend pyRange
    rw [ht]
    rfl
  · unfold generate_conversion_trend pyRange
    rw [ht]
    rfl

/-- The two per-point identities of C1 hold for any day whose raw revenue
product is nonnegative. -/
theorem trendPoint_fields (x : ℚ) (hx : 0 ≤ x) :
    pyInt (pyRound2 x / 78) = ⌊pyRound2 x / 78⌋ ∧
    pyInt ((pyInt (pyRound2 x / 78) : ℚ) / (546/10000)) =
      ⌊(pyInt (pyRound2 x / 78) : ℚ) / (546/10000)⌋ := by
  have hrev : (0 : ℚ) ≤ pyRound2 x := pyRound2_nonneg hx
  have hdiv : (0 : ℚ) ≤ pyRound2 x / 78 := div_nonneg hrev (by norm_num)
  have horders : (0 : ℤ) ≤ pyInt (pyRound2 x / 78) := by
    rw [pyInt_eq_floor hdiv]
    exact Int.le_floor.mpr (by exact_mod_cast hdiv)
  exact ⟨pyInt_eq_floor hdiv,
    pyInt_eq_floor (div_nonneg (by exact_mod_cast horders) (by norm_num))⟩

/-- The C1 statement: `generate_revenue_trend(days)` has exactly `days`
points, dates strictly ascending, and each point satisfies
`orders = floor(revenue / 78)` and `visitors = floor(orders / 0.0546)`. -/
def revenueTrendClaim (days : ℤ) (isWeekend : ℤ → Bool) (randFactor : ℕ → ℚ) : Prop :=
  ((generate_revenue_trend days isWeekend randFactor).length : ℤ) = days ∧
  (generate_revenue_trend days isWeekend randFactor).Pairwise (fun a b => a.date < b.date) ∧
  ∀ p ∈ generate_revenue_trend days isWeekend randFactor,
    p.orders = ⌊p.revenue / 78⌋ ∧ p.visitors = ⌊(p.orders : ℚ) / (546/10000)⌋

/-- C1: for `days > 0` and random factors drawn from `[0.85, 1.15]`, the
revenue trend has the claimed length, order and per-point identities. -/
theorem revenue_trend_points_spec (days : ℤ) (isWeekend : ℤ → Bool) (randFactor : ℕ → ℚ)
    (hd : 0 < days) (hr : ∀ i, 17/20 ≤ randFactor i ∧ randFactor i ≤ 23/20) :
    revenueTrendClaim days isWeekend randFactor := by
  refine ⟨?_, ?_, ?_⟩
  · unfold generate_revenue_trend pyRange
    rw [List.length_map, List.length_range]
    exact_mod_cast Int.toNat_of_nonneg hd.le
  · unfold generate_revenue_trend
    rw [List.pairwise_map]
    refine (List.pairwise_lt_range _).imp ?_
    intro a b hab
    dsimp only
    omega
  · intro p hp
    unfold generate_revenue_trend at hp
    rw [List.mem_map] at hp
    obtain ⟨i, hi, rfl⟩ := hp
    have hb : (0 : ℚ) ≤ (if isWeekend ((i : ℤ) + 1 - days) then (13 : ℚ)/10 else 1) := by
      split <;> norm_num
    have hrand : (0 : ℚ) ≤ randFactor i := le_trans (by norm_num) (hr i).1
    have hg : (0 : ℚ) ≤ 1 + (i : ℚ) * (2/1000) := by positivity
    exact trendPoint_fields _
      (mul_nonneg (mul_nonneg (mul_nonneg (by norm_num) hb) hrand) hg)

/-- Witness for C1 at `days = 1`, constant unit random factor. -/
theorem revenue_trend_points_spec_witness :
    (0 : ℤ) < 1 ∧ (17/20 ≤ (1 : ℚ) ∧ (1 : ℚ) ≤ 23/20) ∧
    revenueTrendClaim 1 (fun _ => false) (fun _ => 1) :=
  ⟨by norm_num, by norm_num,
    revenue_trend_points_spec 1 (fun _ => false) (fun _ => 1) (by norm_num)
      (fun i => by norm_num)⟩

/-- The decay relation of C3: each retention entry lies between
`previous * 0.35` and `previous * 0.55` up to the `0.05` slack of rounding to
one decimal place. -/
def retStep (a b : ℚ) : Prop := a * (7/20) - 1/20 ≤ b ∧ b ≤ a * (11/20) + 1/20

theorem retAux_length (u : ℕ → ℚ) :
    ∀ (js : List ℕ) (prev : ℚ), (retAux u prev js).length = js.length := by
  intro js
  induction js with
  | nil => intro prev; rfl
  | cons j js ih => intro prev; simp [retAux, ih]

theorem cohortRetention_length (u : ℕ → ℚ) (steps : ℕ) :
    (cohortRetention u steps).length = steps + 1 := by
  simp [cohortRetention, retAux_length]

theorem retAux_chain (u : ℕ → ℚ) (hu : ∀ j, 7/20 ≤ u j ∧ u j ≤ 11/20) :
    ∀ (js : List ℕ) (prev : ℚ), 0 ≤ prev →
      List.Chain' retStep (prev :: retAux u prev js) := by
  intro js
  induction js with
  | nil => intro prev _; simp [retAux]
  | cons j js ih =>
    intro prev hp
    have hr0 : (0 : ℚ) ≤ pyRound1 (prev * u j) :=
      pyRound1_nonneg (mul_nonneg hp (le_trans (by norm_num) (hu j).1))
    simp only [retAux]
    refine List.chain'_cons.mpr ⟨?_, ih _ hr0⟩
    have hc := pyRound1_close (prev * u j)
    have h1 : prev * (7/20) ≤ prev * u j := mul_le_mul_of_nonneg_left (hu j).1 hp
    have h2 : prev * u j ≤ prev * (11/20) := mul_le_mul_of_nonneg_left (hu j).2 hp
    exact ⟨by linarith [hc.1], by linarith [hc.2]⟩

theorem cohortRetention_chain (u : ℕ → ℚ) (hu : ∀ j, 7/20 ≤ u j ∧ u j ≤ 11/20)
    (steps : ℕ) : List.Chain' retStep (cohortRetention u steps) :=
  retAux_chain u hu (List.range steps) 100 (by norm_num)

def dfltCohort : Cohort := { month := "", customers := 0, retention := [] }

/-- The C3 statement for cohort index `i`: six cohorts; cohort `i` has
`400 + i*50` initial customers, a retention sequence of length `5 - i + 1`
starting at exactly `100`, with consecutive entries related by the bounded
decay step. -/
def cohortClaim (u : ℕ → ℕ → ℚ) (i : ℕ) : Prop :=
  (generate_cohort_data u).cohorts.length = 6 ∧
  ((generate_cohort_data u).cohorts.getD i dfltCohort).customers = 400 + i * 50 ∧
  ((generate_cohort_data u).cohorts.getD i dfltCohort).retention.length = 5 - i + 1 ∧
  ((generate_cohort_data u).cohorts.getD i dfltCohort).retention.head? = some 100 ∧
  List.Chain' retStep ((generate_cohort_data u).cohorts.getD i dfltCohort).retention

/-- C3: with decay draws in `[0.35, 0.55]`, every cohort satisfies the
claimed shape and bounds. -/
theorem cohort_data_spec (u : ℕ → ℕ → ℚ)
    (hu : ∀ i j, 7/20 ≤ u i j ∧ u i j ≤ 11/20) (i : ℕ) (hi : i < 6) :
    cohortClaim u i := by
  interval_cases i <;>
    exact ⟨rfl, rfl, cohortRetention_length _ _, rfl, cohortRetention_chain _ (hu _) _⟩

/-- Witness for C3 with constant decay factor `0.4`, cohort `0`. -/
theorem cohort_data_spec_witness :
    (7/20 ≤ (2/5 : ℚ) ∧ (2/5 : ℚ) ≤ 11/20) ∧ (0 : ℕ) < 6 ∧
    cohortClaim (fun _ _ => 2/5) 0 :=
  ⟨by norm_num, by norm_num, cohort_data_spec _ (fun i j => by norm_num) 0 (by norm_num)⟩

/-- Witness for C10 at `days = -1`. -/
theorem nonpositive_days_empty_witness :
    (-1 : ℤ) ≤ 0 ∧
    (generate_revenue_trend (-1) (fun _ => false) (fun _ => 1) = [] ∧
      generate_conversion_trend (-1) (fun _ => 0) = []) :=
  ⟨by decide, nonpositive_days_empty (-1) (by decide) _ _ _⟩

/-- The C9 statement: the revenue trend of the dashboard payload matches the
one produced for the default `30d` period and has exactly 30 points. -/
def dashboardClaim (sid period : String) (isWeekend : ℤ → Bool)
    (randFactor : ℕ → ℚ) (u : ℕ → ℕ → ℚ) : Prop :=
  (get_dashboard_metrics sid period isWeekend randFactor u).revenue_trend =
    (get_dashboard_metrics sid "30d" isWeekend randFactor u).revenue_trend ∧
  (get_dashboard_metrics sid period isWeekend randFactor u).revenue_trend.length = 30

/-- C9: an unrecognized period string is not an error; the dashboard falls
back to the 30-day window. -/
theorem dashboard_period_fallback (sid period : String) (isWeekend : ℤ → Bool)
    (randFactor : ℕ → ℚ) (u : ℕ → ℕ → ℚ)
    (h : period ∉ (["7d", "30d", "90d", "1y"] : List String)) :
    dashboardClaim sid period isWeekend randFactor u := by
  simp only [List.mem_cons, List.not_mem_nil, or_false, not_or] at h
  obtain ⟨h1, h2, h3, h4⟩ := h
  have hp : periodDays period = 30 := by
    unfold periodDays
    rw [if_neg h1, if_neg h2, if_neg h3, if_neg h4]
  constructor
  · show generate_revenue_trend (periodDays period) isWeekend randFactor =
      generate_revenue_trend (periodDays "30d") isWeekend randFactor
    rw [hp]
    rfl
  · show (generate_revenue_trend (periodDays period) isWeekend randFactor).length = 30
    rw [hp]
    unfold generate_revenue_trend pyRange
    rw [List.length_map, List.length_range]
    rfl

/-- Witness for C9 at the unrecognized period `"weekly"`. -/
theorem dashboard_period_fallback_witness :
    ("weekly" ∉ (["7d", "30d", "90d", "1y"] : List String)) ∧
    dashboardClaim "demo" "weekly" (fun _ => false) (fun _ => 1) (fun _ _ => 2/5) :=
  ⟨by decide, dashboard_period_fallback "demo" "weekly" _ _ _ (by decide)⟩

/-- The ordering C2 asserts on emitted recommendations: ascending priority
tier, and within a tier descending impact/effort ratio. -/
def recOrder (a b : RecOut) : Prop :=
  tierOf a.toRecEntry < tierOf b.toRecEntry ∨
    (tierOf a.toRecEntry = tierOf b.toRecEntry ∧
      ratioOf b.toRecEntry ≤ ratioOf a.toRecEntry)

theorem sorted_pool_length : sorted_pool.length = 8 := by
  rw [sorted_pool, List.length_insertionSort]
  rfl

theorem gen_rec_length (sid : String) (limit : ℕ) (now : String) :
    (generate_recommendations sid limit now).length = min limit 8 := by
  unfold generate_recommendations
  rw [List.length_map, List.length_take, sorted_pool_length]

theorem sorted_pool_pairwise : sorted_pool.Pairwise recLE := by
  norm_num +decide [sorted_pool, recommendation_pool, List.insertionSort,
    List.orderedInsert, recLE, tierOf, ratioOf, List.pairwise_cons]

theorem sorted_pool_take3_pairwise :
    (sorted_pool.take 3).Pairwise
      (fun a b : RecEntry => a.priority = "high" → b.priority ≠ "critical") := by
  norm_num +decide [sorted_pool, recommendation_pool, List.insertionSort,
    List.orderedInsert, recLE, tierOf, ratioOf, List.pairwise_cons]

/-- The C2 statement: length is `min(limit, 8)`, every emitted item is a
catalog entry, the output is ordered by tier then descending impact/effort
ratio, `limit = 20` yields all 8 items, and at `limit = 3` no high-priority
item precedes a critical one. -/
def recommendationsClaim (sid : String) (limit : ℕ) (now : String) : Prop :=
  (generate_recommendations sid limit now).length = min limit 8 ∧
  (∀ r ∈ generate_recommendations sid limit now, r.toRecEntry ∈ recommendation_pool) ∧
  (generate_recommendations sid limit now).Pairwise recOrder ∧
  (generate_recommendations sid 20 now).length = 8 ∧
  (generate_recommendations sid 3 now).Pairwise
    (fun a b => a.priority = "high" → b.priority ≠ "critical")

/-- C2: the recommendation selection contract holds for every store id,
every limit and every timestamp. -/
theorem recommendations_ranking_spec (sid : String) (limit : ℕ) (now : String) :
    recommendationsClaim sid limit now := by
  refine ⟨gen_rec_length sid limit now, ?_, ?_, ?_, ?_⟩
  · intro r hr
    unfold generate_recommendations at hr
    rw [List.mem_map] at hr
    obtain ⟨e, he, rfl⟩ := hr
    exact (List.perm_insertionSort recLE recommendation_pool).subset
      (List.take_subset _ _ he)
  · unfold generate_recommendations
    rw [List.pairwise_map]
    exact (sorted_pool_pairwise.sublist (List.take_sublist _ _)).imp (fun h => h)
  · rw [gen_rec_length]
    omega
  · unfold generate_recommendations
    rw [List.pairwise_map]
    exact sorted_pool_take3_pairwise.imp (fun h => h)

/-- Witness for C2 at concrete inputs. -/
theorem recommendations_ranking_spec_witness : recommendationsClaim "demo" 5 "t" :=
  recommendations_ranking_spec "demo" 5 "t"

def dfltRecOut : RecOut :=
  { id := "", category := "", priority := "", impact_score := 0, effort_score := 0,
    potential_revenue := 0, implementation_time := "", confidence := 0,
    generated_at := "", store_id := "", roi_score := 0 }

/-- Counterexample to C8 as literally stated: the emitted item `rec_002`
(position 3 of the full ranking) has `roi_score = 354.29`, the 2-decimal
rounding of `12400/35`, which is not equal to the exact ratio
`potential_revenue / max(effort_score, 1)`. -/
theorem roi_exact_ratio_cex :
    ((generate_recommendations "demo" 8 "t").getD 3 dfltRecOut).roi_score ≠
      (((generate_recommendations "demo" 8 "t").getD 3 dfltRecOut).potential_revenue : ℚ) /
        ((max ((generate_recommendations "demo" 8 "t").getD 3 dfltRecOut).effort_score 1 : ℕ) : ℚ) := by
  have hfields :
      ((generate_recommendations "demo" 8 "t").getD 3 dfltRecOut).roi_score =
        pyRound2 ((12400 : ℚ) / 35) ∧
      ((generate_recommendations "demo" 8 "t").getD 3 dfltRecOut).potential_revenue = 12400 ∧
      ((generate_recommendations "demo" 8 "t").getD 3 dfltRecOut).effort_score = 35 := by
    norm_num +decide [generate_recommendations, sorted_pool, recommendation_pool,
      List.insertionSort, List.orderedInsert, recLE, tierOf, ratioOf,
      List.getD_cons_succ, List.getD_cons_zero]
  rw [hfields.1, hfields.2.1, hfields.2.2,
    pyRound2_eval ((12400 : ℚ) / 35) 35429 (by norm_num) (by norm_num)]
  norm_num

/-- The amended C8 statement: each emitted item carries the generation
timestamp, the requesting store id, and `roi_score` equal to the 2-decimal
rounding of `potential_revenue / max(effort_score, 1)`. -/
def roiClaim (sid : String) (limit : ℕ) (now : String) : Prop :=
  ∀ r ∈ generate_recommendations sid limit now,
    r.roi_score = pyRound2 ((r.potential_revenue : ℚ) / ((max r.effort_score 1 : ℕ) : ℚ)) ∧
    r.generated_at = now ∧ r.store_id = sid

/-- C8 (amended): the annotation stamped on every emitted item. -/
theorem roi_annotation_spec (sid : String) (limit : ℕ) (now : String) :
    roiClaim sid limit now := by
  intro r hr
  unfold generate_recommendations at hr
  rw [List.mem_map] at hr
  obtain ⟨e, he, rfl⟩ := hr
  exact ⟨rfl, rfl, rfl⟩

/-- Witness for C8 at `limit = 1`: the single emitted item satisfies the
annotation contract. -/
theorem roi_annotation_spec_witness :
    (generate_recommendations "demo" 1 "t").getD 0 dfltRecOut ∈
      generate_recommendations "demo" 1 "t" ∧
    (((generate_recommendations "demo" 1 "t").getD 0 dfltRecOut).roi_score =
      pyRound2 ((((generate_recommendations "demo" 1 "t").getD 0 dfltRecOut).potential_revenue : ℚ) /
        ((max ((generate_recommendations "demo" 1 "t").getD 0 dfltRecOut).effort_score 1 : ℕ) : ℚ)) ∧
      ((generate_recommendations "demo" 1 "t").getD 0 dfltRecOut).generated_at = "t" ∧
      ((generate_recommendations "demo" 1 "t").getD 0 dfltRecOut).store_id = "demo") := by
  have hl : (generate_recommendations "demo" 1 "t").length = 1 := by
    rw [gen_rec_length]
    omega
  obtain ⟨a, ha⟩ := List.length_eq_one.mp hl
  have hm : (generate_recommendations "demo" 1 "t").getD 0 dfltRecOut ∈
      generate_recommendations "demo" 1 "t" := by
    rw [ha]
    simp
  exact ⟨hm, roi_annotation_spec "demo" 1 "t" _ hm⟩

end ShopifyPulse
